/-
Verification of the core logic of src/app.py (a Flask construction-utility
portal): the unit/material conversion engine of `unit_converter_page`, the
coordinate-parsing loop of `generate_dxf`, the drawing-export radius
handling, and the forum store routes `post_article_submit` and
`post_comment_submit`.

Python floats are modelled as exact rationals (ℚ): every numeric operation in
the verified code is a finite chain of multiplications and divisions by the
fixed table constants, so ℚ is the idealised semantics of the float code.
Routes are modelled as pure functions of their form fields; a form field is
an `Option String` (Python `request.form.get` returns `None` when absent),
and a route's flash-and-redirect error path is modelled as `none`.
-/

import Mathlib

namespace Dokenapp

/-! ## Unit and material tables (src/app.py:303-310, 316-318, 332-337) -/

/-- Length table of `unit_converter_page`:
`{'m':1.0, 'cm':0.01, 'mm':0.001, 'km':1000.0, 'ft':0.3048, 'in':0.0254}`. -/
def length_table : List (String × ℚ) :=
  [("m", 1), ("cm", 1/100), ("mm", 1/1000), ("km", 1000),
   ("ft", 3048/10000), ("in", 254/10000)]

/-- Weight table: `{'kg':1.0, 'g':0.001, 't':1000.0, 'lb':0.45359237}`. -/
def weight_table : List (String × ℚ) :=
  [("kg", 1), ("g", 1/1000), ("t", 1000), ("lb", 45359237/100000000)]

/-- Volume table: `{'m3':1.0, 'l':0.001, 'ml':0.000001}`. -/
def volume_table : List (String × ℚ) :=
  [("m3", 1), ("l", 1/1000), ("ml", 1/1000000)]

/-- Material densities in kg/m³ (src/app.py:303-310), as `(key, label, density)`. -/
def MATERIALS : List (String × String × ℚ) :=
  [("soil_compacted", "土(締固め)", 1700),
   ("crushed_stone", "砕石", 2000),
   ("concrete_rebar", "コンクリート（有筋）", 2400),
   ("concrete_plain", "コンクリート（無筋）", 2350),
   ("asphalt", "アスファルト", 2300),
   ("steel", "鋼材", 7850)]

/-- Python dict lookup `table[u]` on a unit table, `none` when `u` is absent
(the routes only index after an explicit `in` check). -/
def scaleOf (table : List (String × ℚ)) (u : String) : Option ℚ :=
  (table.find? (fun p => p.1 == u)).map Prod.snd

/-- Lookup `MATERIALS[key]`, giving `(label, density)`. -/
def materialOf (key : String) : Option (String × ℚ) :=
  (MATERIALS.find? (fun m => m.1 == key)).map Prod.snd

/-- Category dispatch of `unit_converter_page` (src/app.py:330-337): the
`if/elif/elif/else` chain; an unknown category raises
`ValueError('未対応のカテゴリ')`, modelled as `none`. -/
def tableOf (category : String) : Option (List (String × ℚ)) :=
  if category = "length" then some length_table
  else if category = "weight" then some weight_table
  else if category = "volume" then some volume_table
  else none

/-! ## The conversion engine -/

/-- The inner `convert` of `unit_converter_page` (src/app.py:326-328):
`base = value * table[frm]; return base / table[to]`.  A missing key would
raise `KeyError`, modelled as `none`; the route checks membership first, so
that path is unreachable from the route. -/
def convert (value : ℚ) (frm toU : String) (table : List (String × ℚ)) : Option ℚ :=
  match scaleOf table frm with
  | none => none
  | some sf =>
    match scaleOf table toU with
    | none => none
    | some st => some (value * sf / st)

/-- Python `round(x, 6)` on the exact rational model: round half to even at
the sixth decimal place. -/
def round6 (q : ℚ) : ℚ :=
  let s := q * 1000000
  let f := ⌊s⌋
  let r := s - f
  (if r < 1/2 then (f : ℚ)
   else if r > 1/2 then (f + 1 : ℚ)
   else if f % 2 = 0 then (f : ℚ) else (f + 1 : ℚ)) / 1000000

/-! ## Python string primitives (modelled structurally over `String.data`) -/

/-- The whitespace Python `str.strip()` removes (ASCII part; the app's inputs
contain no other Unicode whitespace). -/
def isPySpace (c : Char) : Bool :=
  c = ' ' || c = '\t' || c = '\n' || c = '\r' || c = '\x0b' || c = '\x0c'

/-- Remove leading and trailing Python whitespace from a character list. -/
def trimChars (l : List Char) : List Char :=
  ((l.dropWhile isPySpace).reverse.dropWhile isPySpace).reverse

/-- Python `s.strip()`. -/
def pyStrip (s : String) : String := ⟨trimChars s.data⟩

/-- Split a character list at every occurrence of `sep`; the separators are
consumed, empty segments are kept (Python `str.split(sep)` semantics). -/
def splitOnChar (sep : Char) (l : List Char) : List (List Char) :=
  match l with
  | [] => [[]]
  | c :: rest =>
    let r := splitOnChar sep rest
    if c = sep then [] :: r
    else
      match r with
      | [] => [[c]]
      | h :: t => (c :: h) :: t

/-- Python `s.split(sep)` for a one-character separator. -/
def pySplit (s : String) (sep : Char) : List String :=
  (splitOnChar sep s.data).map (fun l => (⟨l⟩ : String))

/-- Python `s.splitlines()` as this app uses it: the textarea input is
newline-separated (a trailing newline only contributes a blank line, which
the coordinate parser skips anyway). -/
def pySplitlines (s : String) : List String := pySplit s '\n'

/-- Python `s.lower()` (ASCII; the forbidden words are ASCII). -/
def pyLower (s : String) : String := ⟨s.data.map Char.toLower⟩

/-- Value of a digit string, most significant digit first. -/
def digitsVal (l : List Char) : ℕ := l.foldl (fun n c => n * 10 + (c.toNat - 48)) 0

/-- Magnitude part of Python `float(s)`: digits with an optional decimal
point, at least one digit overall. -/
def pyFloatMag (l : List Char) : Option ℚ :=
  let ip := l.takeWhile Char.isDigit
  let rest := l.dropWhile Char.isDigit
  match rest with
  | [] => if ip.isEmpty then none else some ((digitsVal ip : ℕ) : ℚ)
  | '.' :: fp =>
    if fp.all Char.isDigit && !(ip.isEmpty && fp.isEmpty) then
      some (((digitsVal ip * 10 ^ fp.length + digitsVal fp : ℕ) : ℚ)
              / ((10 ^ fp.length : ℕ) : ℚ))
    else none
  | _ => none

/-- Python `float(s)` restricted to the decimal forms this app receives: an
optional sign, digits with an optional decimal point, surrounded by optional
whitespace (exponents, `inf`, `nan` and underscores never reach this code).
`none` models the `ValueError` that `float` raises on anything else. -/
def pyFloat (s : String) : Option ℚ :=
  match trimChars s.data with
  | '+' :: r => pyFloatMag r
  | '-' :: r => (pyFloatMag r).map Neg.neg
  | r => pyFloatMag r

/-! ## The unit-converter route (src/app.py:298-399, POST branch) -/

/-- The form fields `unit_converter_page` reads (`request.form.get`). -/
structure ConvForm where
  mode : Option String
  category : Option String
  value : Option String
  from_unit : Option String
  to_unit : Option String
  direction : Option String
  vol_unit : Option String
  mass_unit : Option String
  material : Option String

/-- The `result` dict built by the POST branch of `unit_converter_page`
(restricted to the fields the spec talks about). -/
inductive ConvOutcome where
  | unitResult (value : ℚ) (frm toU : String) (out : ℚ)
  | materialResult (direction material : String) (value : ℚ)
      (from_unit to_unit : String) (out : ℚ) (density : ℚ)
deriving DecidableEq

/-- `float(request.form.get('value', '0') or 0)` (src/app.py:322 and 354): a
missing field defaults to the string `'0'`; an empty string is falsy, so
`'' or 0` yields the int `0`; any other string goes through `float`, whose
`ValueError` (modelled as `none`) is caught by the route's `except` block. -/
def parse_value (form_value : Option String) : Option ℚ :=
  let s := form_value.getD "0"
  if s = "" then some 0 else pyFloat s

/-- The POST branch of `unit_converter_page` (src/app.py:313-399).  `none`
models the `except` path (`flash('換算に失敗しました…')` with no result);
`some` carries the `result` dict handed to the template. -/
def unit_converter_page (f : ConvForm) : Option ConvOutcome :=
  let mode := f.mode.getD "unit"
  if mode = "unit" then
    match parse_value f.value with
    | none => none
    | some value =>
      match tableOf (f.category.getD "length") with
      | none => none
      | some table =>
        match f.from_unit, f.to_unit with
        | some frm, some toU =>
          if (scaleOf table frm).isSome && (scaleOf table toU).isSome then
            match convert value frm toU table with
            | some out_val => some (.unitResult value frm toU (round6 out_val))
            | none => none
          else none
        | _, _ => none
  else
    let direction := f.direction.getD "vol_to_mass"
    match parse_value f.value with
    | none => none
    | some value =>
      let vol_unit := f.vol_unit.getD "m3"
      let mass_unit := f.mass_unit.getD "kg"
      match f.material with
      | none => none
      | some material_key =>
        match materialOf material_key with
        | none => none
        | some mat =>
          let density := mat.2
          match scaleOf volume_table vol_unit, scaleOf weight_table mass_unit with
          | some sv, some sm =>
            if direction = "vol_to_mass" then
              let vol_m3 := value * sv
              let mass_kg := vol_m3 * density
              let out_mass := mass_kg / sm
              some (.materialResult direction mat.1 value vol_unit mass_unit
                      (round6 out_mass) density)
            else
              let mass_kg := value * sm
              let vol_m3 := mass_kg / density
              let out_vol := vol_m3 / sv
              some (.materialResult direction mat.1 value mass_unit vol_unit
                      (round6 out_vol) density)
          | _, _ => none

/-! ## The coordinate parser of `generate_dxf` (src/app.py:420-442) -/

/-- One parsed coordinate line: `{'label': label, 'x': x, 'y': y}`. -/
structure CoordinatePoint where
  label : String
  x : ℚ
  y : ℚ
deriving DecidableEq

/-- `parts = [p.strip() for p in line.split(',') if p.strip()]`
(src/app.py:425): comma-split, each part stripped, empty parts dropped. -/
def partsOf (line : String) : List String :=
  ((pySplit line ',').map pyStrip).filter (fun p => p ≠ "")

/-- One iteration of the parsing loop in `generate_dxf` (src/app.py:420-442);
`none` models `continue`: a blank line, a single-part line, or a `float`
failure.  For a zero-part line such as `","` the source's `parts[-2]` raises
`IndexError`, caught by the same `except`; here the `getD` fallback feeds
`""` to `pyFloat`, which likewise yields `none`. -/
def parseLine (raw_line : String) : Option CoordinatePoint :=
  if pyStrip raw_line = "" then none
  else if (partsOf (pyStrip raw_line)).length = 1 then none
  else if (partsOf (pyStrip raw_line)).length = 2 then
    match pyFloat ((partsOf (pyStrip raw_line)).getD 0 ""),
          pyFloat ((partsOf (pyStrip raw_line)).getD 1 "") with
    | some x, some y => some ⟨"", x, y⟩
    | _, _ => none
  else
    match pyFloat (((partsOf (pyStrip raw_line)).dropLast.getLast?).getD ""),
          pyFloat (((partsOf (pyStrip raw_line)).getLast?).getD "") with
    | some x, some y =>
      some ⟨String.intercalate "," ((partsOf (pyStrip raw_line)).dropLast.dropLast), x, y⟩
    | _, _ => none

/-- The whole coordinate-parsing loop of `generate_dxf`: split into lines
and collect the lines that parse. -/
def parse_coordinates (text : String) : List CoordinatePoint :=
  (pySplitlines text).filterMap parseLine

/-! ## Drawing export (spec §4.3; the circle branch is not in src/app.py) -/

/-- A primary shape the drawing export emits. -/
inductive Shape where
  | pointMark (x y : ℚ)
  | textLabel (s : String) (x y : ℚ)
  | circle (x y radius : ℚ)
deriving DecidableEq

/-- Modelled from the spec: the circle/radius branch of the drawing export is
missing from src/app.py (the shipped `generate_dxf` only emits point+text
shapes); spec §4.3 says "Radius must be positive; non-positive or unparsable
radius silently falls back to a default of 1.0". -/
def effective_radius (shape_param : String) : ℚ :=
  match pyFloat shape_param with
  | some r => if 0 < r then r else 1
  | none => 1

/-- Modelled from the spec (§4.3 `build_drawing`, missing from src/app.py):
every point contributes exactly one primary shape tagged with the requested
layer — a point marker plus an optional text label (the behaviour the shipped
`generate_dxf` loop does have, src/app.py:454-459), or a circle of the
effective radius when the configured shape kind is `circle`. -/
def build_drawing (points : List CoordinatePoint) (layer_name shape_kind : String)
    (shape_param : String) : List (String × Shape) :=
  points.flatMap fun pt =>
    if shape_kind = "circle" then
      [(layer_name, Shape.circle pt.x pt.y (effective_radius shape_param))]
    else
      (layer_name, Shape.pointMark pt.x pt.y)
        :: (if pt.label ≠ "" then
              [(layer_name, Shape.textLabel pt.label (pt.x + 1/5) (pt.y + 1/5))]
            else [])

/-! ## Forum store (src/app.py:17-21, 23-28, 160-219) -/

def MAX_TAGS : ℕ := 5

def FORBIDDEN_WORDS : List String := ["spam", "test"]

def MAX_ARTICLE_LENGTH : ℕ := 5000

def MAX_COMMENT_LENGTH : ℕ := 1000

/-- `check_spam_content(body, max_len)` (src/app.py:23-28): flags a body
longer than `max_len` (Python `len` counts code points, as does
`String.length`). -/
def check_spam_content (body : String) (max_len : ℕ) : Bool × String :=
  if body.length > max_len then
    (true, "本文が長すぎます (最大 " ++ toString max_len ++ " 文字)")
  else (false, "")

/-- A row of the `articles` table; `created_at` is an abstract timestamp. -/
structure Article where
  id : ℕ
  title : String
  body : String
  tags : String
  created_at : ℕ
deriving DecidableEq

/-- A row of the `comments` table. -/
structure Comment where
  id : ℕ
  article_id : ℕ
  body : String
  created_at : ℕ
deriving DecidableEq

/-- The SQLite database state: the two tables of `init_db`. -/
structure DB where
  articles : List Article
  comments : List Comment
deriving DecidableEq

/-- A flashed message with its category (`'warning'`, `'success'`, …). -/
structure FlashMsg where
  text : String
  category : String
deriving DecidableEq

/-- The id `AUTOINCREMENT` assigns to a fresh row: one more than the largest
id present. -/
def nextId (ids : List ℕ) : ℕ := ids.foldr max 0 + 1

/-- `needle` occurs as a contiguous sublist of the second argument
(Python `needle in hay` on strings). -/
def subList (needle : List Char) : List Char → Bool
  | [] => needle.isEmpty
  | c :: rest => needle.isPrefixOf (c :: rest) || subList needle rest

/-- Python `w in t` for strings. -/
def containsSub (hay needle : String) : Bool := subList needle.data hay.data

/-- `post_article_submit` (src/app.py:160-196): tag-count check, forbidden-word
check, empty-body check and spam check, in the source's order, each flashing a
`'warning'` and leaving the database untouched; only after all of them does
the route insert the article row.  `now` stands for `datetime.utcnow()`. -/
def post_article_submit (form_title form_body form_tags : Option String)
    (now : ℕ) (db : DB) : DB × FlashMsg :=
  let title := pyStrip (form_title.getD "")
  let body := pyStrip (form_body.getD "")
  let tags_raw := pyStrip (form_tags.getD "")
  let tags := ((pySplit tags_raw ',').map (fun t => pyLower (pyStrip t))).filter
                (fun t => t ≠ "")
  if tags.length > MAX_TAGS then
    (db, ⟨"タグは最大 " ++ toString MAX_TAGS ++ " 個までです。", "warning"⟩)
  else if tags.any (fun t => FORBIDDEN_WORDS.any
                      (fun w => containsSub (pyLower t) (pyLower w))) then
    (db, ⟨"タグに不適切な語句が含まれています。", "warning"⟩)
  else
    let tags_joined := String.intercalate "," tags
    if body = "" then
      (db, ⟨"本文は必須です。", "warning"⟩)
    else if (check_spam_content body MAX_ARTICLE_LENGTH).1 then
      (db, ⟨"投稿を受け付けられません: "
              ++ (check_spam_content body MAX_ARTICLE_LENGTH).2, "warning"⟩)
    else
      ({ articles := db.articles
           ++ [⟨nextId (db.articles.map Article.id), title, body, tags_joined, now⟩],
         comments := db.comments },
       ⟨"記事を投稿しました（匿名）。", "success"⟩)

/-- `post_comment_submit` (src/app.py:199-219): strips the comment body,
rejects an empty or over-long body, then inserts the comment row — without
ever checking that `article_id` names an existing article (the connection
never enables SQLite foreign keys, so the declared `FOREIGN KEY ...
REFERENCES articles(id)` is not enforced and an orphan insert succeeds). -/
def post_comment_submit (article_id : ℕ) (form_comment_body : Option String)
    (now : ℕ) (db : DB) : DB × FlashMsg :=
  let body := pyStrip (form_comment_body.getD "")
  if body = "" then (db, ⟨"コメントを入力してください。", "warning"⟩)
  else if (check_spam_content body MAX_COMMENT_LENGTH).1 then
    (db, ⟨"コメントを受け付けられません: "
            ++ (check_spam_content body MAX_COMMENT_LENGTH).2, "warning"⟩)
  else
    ({ articles := db.articles,
       comments := db.comments
         ++ [⟨nextId (db.comments.map Comment.id), article_id, body, now⟩] },
     ⟨"コメントを投稿しました（匿名）。", "success"⟩)

/-! ## Helper lemmas -/

/-- A successful table lookup returns the second component of a table entry. -/
theorem scaleOf_mem {table : List (String × ℚ)} {u : String} {s : ℚ}
    (h : scaleOf table u = some s) : ∃ p ∈ table, p.2 = s := by
  unfold scaleOf at h
  cases hf : table.find? (fun p => p.1 == u) with
  | none => rw [hf] at h; simp at h
  | some p =>
    rw [hf] at h
    simp at h
    exact ⟨p, List.mem_of_find?_eq_some hf, h⟩

/-- Every scale factor in the three category tables is strictly positive. -/
theorem table_scaleOf_pos {cat : String} {table : List (String × ℚ)} {u : String}
    {s : ℚ} (hcat : tableOf cat = some table) (hu : scaleOf table u = some s) :
    0 < s := by
  obtain ⟨p, hp, hps⟩ := scaleOf_mem hu
  subst hps
  unfold tableOf at hcat
  split_ifs at hcat <;> simp only [Option.some.injEq] at hcat <;> subst hcat <;>
    fin_cases hp <;> norm_num

/-- Unit mode of the route, symbolically: with a valid category, a parsable
value and two units present in the table, the route reaches the inner
`convert` and rounds its output to six decimals. -/
theorem unit_route_eq (cat : String) (table : List (String × ℚ)) (vs : Option String)
    (v : ℚ) (frm toU : String) (sf st : ℚ)
    (hcat : tableOf cat = some table) (hv : parse_value vs = some v)
    (hf : scaleOf table frm = some sf) (ht : scaleOf table toU = some st) :
    unit_converter_page ⟨some "unit", some cat, vs, some frm, some toU,
        none, none, none, none⟩
      = some (.unitResult v frm toU (round6 (v * sf / st))) := by
  unfold unit_converter_page
  simp only [Option.getD_some, if_pos rfl, hv, hcat, convert, hf, ht,
    Option.isSome_some, Bool.and_self, if_true]

/-- Material mode of the route in direction `vol_to_mass`, symbolically:
normalize the volume, multiply by the density, denormalize the mass, round. -/
theorem material_route_eq (dirField vs : Option String) (v : ℚ) (key label : String)
    (density : ℚ) (vu mu : String) (sv sm : ℚ)
    (hdir : dirField.getD "vol_to_mass" = "vol_to_mass")
    (hv : parse_value vs = some v) (hm : materialOf key = some (label, density))
    (hvu : scaleOf volume_table vu = some sv)
    (hmu : scaleOf weight_table mu = some sm) :
    unit_converter_page ⟨some "material", none, vs, none, none, dirField,
        some vu, some mu, some key⟩
      = some (.materialResult "vol_to_mass" label v vu mu
                (round6 (v * sv * density / sm)) density) := by
  unfold unit_converter_page
  simp only [Option.getD_some]
  rw [if_neg (by decide : ¬ ("material" = "unit"))]
  simp only [hv, hm, hvu, hmu, hdir, eq_self_iff_true, if_true]

/-! ## The claims -/

/-- C1: for every value and every pair of unit symbols present in a category
table, the route computes `base = value * table[frm]` and returns
`base / table[toU]`, rounding the returned result to six decimal places; in
particular 100 cm is 1.0 m. -/
theorem C1_unit_convert_two_step :
    (∀ (cat : String) (table : List (String × ℚ)) (vs : Option String) (v : ℚ)
        (frm toU : String) (sf st : ℚ),
        tableOf cat = some table → parse_value vs = some v →
        scaleOf table frm = some sf → scaleOf table toU = some st →
        unit_converter_page ⟨some "unit", some cat, vs, some frm, some toU,
            none, none, none, none⟩
          = some (.unitResult v frm toU (round6 (v * sf / st))))
    ∧ unit_converter_page ⟨some "unit", some "length", some "100", some "cm",
          some "m", none, none, none, none⟩
        = some (.unitResult 100 "cm" "m" 1) := by
  refine ⟨unit_route_eq, ?_⟩
  have h := unit_route_eq "length" length_table (some "100") 100 "cm" "m"
    (1/100) 1 rfl (by decide) rfl rfl
  rw [h]
  norm_num [round6]

/-- Witness for C1 at a weight-table instance: 3 t to kg. -/
theorem C1_unit_convert_two_step_witness :
    unit_converter_page ⟨some "unit", some "weight", some "3", some "t",
        some "kg", none, none, none, none⟩
      = some (.unitResult 3 "t" "kg" (round6 (3 * 1000 / 1))) :=
  C1_unit_convert_two_step.1 "weight" weight_table (some "3") 3 "t" "kg"
    1000 1 rfl (by decide) rfl rfl

/-- C2: in direction `vol_to_mass` the route normalizes the volume to cubic
meters, multiplies by the material's density (kg/m³), denormalizes via the
weight table and rounds to six decimals; in particular 2 m³ of reinforced
concrete (density 2400) is 4.8 t. -/
theorem C2_material_vol_to_mass :
    (∀ (vs : Option String) (v : ℚ) (key label : String) (density : ℚ)
        (vu mu : String) (sv sm : ℚ),
        parse_value vs = some v → materialOf key = some (label, density) →
        scaleOf volume_table vu = some sv → scaleOf weight_table mu = some sm →
        unit_converter_page ⟨some "material", none, vs, none, none,
            some "vol_to_mass", some vu, some mu, some key⟩
          = some (.materialResult "vol_to_mass" label v vu mu
                    (round6 (v * sv * density / sm)) density))
    ∧ unit_converter_page ⟨some "material", none, some "2", none, none,
          some "vol_to_mass", some "m3", some "t", some "concrete_rebar"⟩
        = some (.materialResult "vol_to_mass" "コンクリート（有筋）" 2 "m3" "t"
                  (24/5) 2400) := by
  constructor
  · intro vs v key label density vu mu sv sm hv hm hvu hmu
    exact material_route_eq (some "vol_to_mass") vs v key label density vu mu
      sv sm rfl hv hm hvu hmu
  · have h := material_route_eq (some "vol_to_mass") (some "2") 2
      "concrete_rebar" "コンクリート（有筋）" 2400 "m3" "t" 1 1000
      rfl (by decide) rfl rfl rfl
    rw [h]
    norm_num [round6]

/-- Witness for C2: 1 l of steel (density 7850) to kg. -/
theorem C2_material_vol_to_mass_witness :
    unit_converter_page ⟨some "material", none, some "1", none, none,
        some "vol_to_mass", some "l", some "kg", some "steel"⟩
      = some (.materialResult "vol_to_mass" "鋼材" 1 "l" "kg"
                (round6 (1 * (1/1000) * 7850 / 1)) 7850) :=
  C2_material_vol_to_mass.1 (some "1") 1 "steel" "鋼材" 7850 "l" "kg"
    (1/1000) 1 (by decide) rfl rfl rfl

/-- C3: for every category, every pair of units in its table and every
positive value, converting with the inner `convert` from `a` to `b` and back
returns the value exactly (hence certainly within rounding tolerance; the
route applies `round(…, 6)` only to the displayed result, not inside
`convert`). -/
theorem C3_roundtrip (cat : String) (table : List (String × ℚ)) (a b : String)
    (sa sb : ℚ) (v : ℚ) (hcat : tableOf cat = some table)
    (ha : scaleOf table a = some sa) (hb : scaleOf table b = some sb)
    (hv : 0 < v) :
    (convert v a b table).bind (fun w => convert w b a table) = some v := by
  have hsa := (table_scaleOf_pos hcat ha).ne'
  have hsb := (table_scaleOf_pos hcat hb).ne'
  unfold convert
  rw [ha, hb]
  show some (v * sa / sb * sb / sa) = some v
  rw [Option.some.injEq]
  field_simp

/-- Witness for C3: 5 cm to km and back. -/
theorem C3_roundtrip_witness :
    (0:ℚ) < 5
    ∧ (convert 5 "cm" "km" length_table).bind
        (fun w => convert w "km" "cm" length_table) = some 5 :=
  ⟨by norm_num,
   C3_roundtrip "length" length_table "cm" "km" (1/100) 1000 5 rfl rfl rfl
     (by norm_num)⟩

/-- C4: for every category, every unit in its table and every value,
converting a value from a unit to itself returns it exactly. -/
theorem C4_identity (cat : String) (table : List (String × ℚ)) (v : ℚ)
    (u : String) (s : ℚ) (hcat : tableOf cat = some table)
    (hu : scaleOf table u = some s) :
    convert v u u table = some v := by
  have hs : 0 < s := table_scaleOf_pos hcat hu
  unfold convert
  rw [hu]
  show some (v * s / s) = some v
  rw [mul_div_assoc, div_self hs.ne', mul_one]

/-- Witness for C4: 7 kg to kg. -/
theorem C4_identity_witness : convert 7 "kg" "kg" weight_table = some 7 :=
  C4_identity "weight" weight_table 7 "kg" 1 rfl rfl

/-- C5 (counterexample): on the spec's example input the code keeps only
`{label:"", x:1, y:2}` — the line `"3,4,LBL"` is dropped, because the code
takes `parts[-2] = "4"` and `parts[-1] = "LBL"` as the coordinates and
`float("LBL")` raises, so the claimed second point never appears. -/
theorem C5_counterexample :
    parse_coordinates "1,2\n,\nabc,2\n3,4,LBL" = [⟨"", 1, 2⟩]
    ∧ parse_coordinates "1,2\n,\nabc,2\n3,4,LBL"
        ≠ [⟨"", 1, 2⟩, ⟨"LBL", 3, 4⟩] := by
  constructor <;> decide

/-- C5 (amended): a line with more than two parts takes its last two parts as
x and y and rejoins all preceding parts, comma-separated, as the label — so
the label must come first; on `"1,2\n,\nabc,2\nLBL,3,4"` the parser yields
exactly `{label:"", x:1, y:2}` and `{label:"LBL", x:3, y:4}`. -/
theorem C5_amended :
    (∀ (raw_line : String) (qx qy : ℚ),
        pyStrip raw_line ≠ "" →
        2 < (partsOf (pyStrip raw_line)).length →
        pyFloat (((partsOf (pyStrip raw_line)).dropLast.getLast?).getD "")
          = some qx →
        pyFloat (((partsOf (pyStrip raw_line)).getLast?).getD "") = some qy →
        parseLine raw_line
          = some ⟨String.intercalate ","
                    ((partsOf (pyStrip raw_line)).dropLast.dropLast), qx, qy⟩)
    ∧ parse_coordinates "1,2\n,\nabc,2\nLBL,3,4"
        = [⟨"", 1, 2⟩, ⟨"LBL", 3, 4⟩] := by
  constructor
  · intro raw qx qy h1 hlen hx hy
    have h2 : ¬ (partsOf (pyStrip raw)).length = 1 := by omega
    have h3 : ¬ (partsOf (pyStrip raw)).length = 2 := by omega
    unfold parseLine
    rw [if_neg h1, if_neg h2, if_neg h3, hx, hy]
  · decide

/-- Witness for C5 (amended) on the line `"A,B,3,4"`. -/
theorem C5_amended_witness :
    parseLine "A,B,3,4"
      = some ⟨String.intercalate ","
                ((partsOf (pyStrip "A,B,3,4")).dropLast.dropLast), 3, 4⟩ :=
  C5_amended.1 "A,B,3,4" 3 4 (by decide) (by decide) (by decide) (by decide)

/-- C6: the parser is total by construction (it is a Lean function on all of
`String`), and whenever no line parses it returns the empty list; the empty
string and a single-value line are concrete such inputs. -/
theorem C6_parse_total_empty :
    (∀ text : String,
        (∀ line ∈ pySplitlines text, parseLine line = none) →
        parse_coordinates text = [])
    ∧ parse_coordinates "" = [] ∧ parse_coordinates "justonevalue" = [] := by
  refine ⟨?_, by decide, by decide⟩
  intro text h
  unfold parse_coordinates
  exact List.filterMap_eq_nil_iff.mpr h

/-- Witness for C6 on an input whose lines all fail to parse. -/
theorem C6_parse_total_empty_witness : parse_coordinates "x\ny" = [] :=
  C6_parse_total_empty.1 "x\ny" (by decide)

/-- C7 (spec-modelled): a non-positive or unparsable shape radius silently
falls back to the default 1.0, a positive parsable radius is used as given,
and every point contributes a circle of the effective radius on the
requested layer. -/
theorem C7_radius_fallback :
    (∀ raw : String, pyFloat raw = none → effective_radius raw = 1)
    ∧ (∀ (raw : String) (r : ℚ), pyFloat raw = some r → r ≤ 0 →
        effective_radius raw = 1)
    ∧ (∀ (raw : String) (r : ℚ), pyFloat raw = some r → 0 < r →
        effective_radius raw = r)
    ∧ (∀ (points : List CoordinatePoint) (layer raw : String)
        (pt : CoordinatePoint), pt ∈ points →
        (layer, Shape.circle pt.x pt.y (effective_radius raw))
          ∈ build_drawing points layer "circle" raw) := by
  refine ⟨?_, ?_, ?_, ?_⟩
  · intro raw h
    unfold effective_radius
    rw [h]
  · intro raw r h hr
    unfold effective_radius
    rw [h]
    exact if_neg (not_lt.mpr hr)
  · intro raw r h hr
    unfold effective_radius
    rw [h]
    exact if_pos hr
  · intro points layer raw pt hpt
    unfold build_drawing
    refine List.mem_flatMap.mpr ⟨pt, hpt, ?_⟩
    rw [if_pos rfl]
    exact List.mem_singleton.mpr rfl

/-- Witness for C7: an unparsable radius, a zero radius, a positive radius,
and the circle actually emitted for a point. -/
theorem C7_radius_fallback_witness :
    effective_radius "abc" = 1 ∧ effective_radius "0" = 1
    ∧ effective_radius "2" = 2
    ∧ ("L", Shape.circle 1 2 (effective_radius "abc"))
        ∈ build_drawing [⟨"", 1, 2⟩] "L" "circle" "abc" :=
  ⟨C7_radius_fallback.1 "abc" (by decide),
   C7_radius_fallback.2.1 "0" 0 (by decide) le_rfl,
   C7_radius_fallback.2.2.1 "2" 2 (by decide) (by norm_num),
   C7_radius_fallback.2.2.2 [⟨"", 1, 2⟩] "L" "abc" ⟨"", 1, 2⟩ (by decide)⟩

/-- C8 (code bug): `post_comment_submit` never checks that the article
exists.  With a database whose only article has id 1, posting the non-empty
comment `"hello"` to article 999 inserts an orphan comments row and flashes
success — although the schema of `init_db` declares
`FOREIGN KEY(article_id) REFERENCES articles(id)` (never enabled on the
connection) and the spec demands a NotFound failure with no row created. -/
theorem C8_orphan_comment_insert :
    ((⟨[⟨1, "t", "b", "", 0⟩], []⟩ : DB).articles.map Article.id).contains 999
        = false
    ∧ (post_comment_submit 999 (some "hello") 0
          ⟨[⟨1, "t", "b", "", 0⟩], []⟩).1.comments = [⟨1, 999, "hello", 0⟩]
    ∧ (post_comment_submit 999 (some "hello") 0
          ⟨[⟨1, "t", "b", "", 0⟩], []⟩).2
        = ⟨"コメントを投稿しました（匿名）。", "success"⟩ := by
  refine ⟨rfl, by decide, by decide⟩

/-- C9: a post whose body is empty after trimming never inserts a row: every
branch the route can take flashes a `'warning'` (tag-count, forbidden-word or
required-body message) and returns the database unchanged. -/
theorem C9_empty_body_validation (form_title form_body form_tags : Option String)
    (now : ℕ) (db : DB)
    (hbody : pyStrip (form_body.getD "") = "") :
    (post_article_submit form_title form_body form_tags now db).1 = db
    ∧ (post_article_submit form_title form_body form_tags now db).2.category
        = "warning" := by
  unfold post_article_submit
  simp only [hbody]
  split_ifs <;> simp_all

/-- Witness for C9: a whitespace-only body on the empty database. -/
theorem C9_empty_body_validation_witness :
    (post_article_submit none (some "  ") none 0 ⟨[], []⟩).1 = (⟨[], []⟩ : DB)
    ∧ (post_article_submit none (some "  ") none 0 ⟨[], []⟩).2.category
        = "warning" :=
  C9_empty_body_validation none (some "  ") none 0 ⟨[], []⟩ (by decide)

/-- C10: in both modes, a missing or empty `value` field is treated as 0.0
rather than failing: `parse_value` yields 0 and, with valid remaining fields,
the route returns a result whose input value and rounded output are both 0. -/
theorem C10_missing_value_zero :
    (∀ vs : Option String, vs = none ∨ vs = some "" → parse_value vs = some 0)
    ∧ (∀ (vs : Option String) (cat : String) (table : List (String × ℚ))
        (frm toU : String) (sf st : ℚ),
        vs = none ∨ vs = some "" →
        tableOf cat = some table → scaleOf table frm = some sf →
        scaleOf table toU = some st →
        unit_converter_page ⟨some "unit", some cat, vs, some frm, some toU,
            none, none, none, none⟩
          = some (.unitResult 0 frm toU 0))
    ∧ (∀ (vs : Option String) (key label : String) (density : ℚ)
        (vu mu : String) (sv sm : ℚ),
        vs = none ∨ vs = some "" →
        materialOf key = some (label, density) →
        scaleOf volume_table vu = some sv → scaleOf weight_table mu = some sm →
        unit_converter_page ⟨some "material", none, vs, none, none, none,
            some vu, some mu, some key⟩
          = some (.materialResult "vol_to_mass" label 0 vu mu 0 density)) := by
  have hpv : ∀ vs : Option String, vs = none ∨ vs = some "" →
      parse_value vs = some 0 := by
    rintro vs (rfl | rfl) <;> decide
  refine ⟨hpv, ?_, ?_⟩
  · intro vs cat table frm toU sf st hvs hcat hf ht
    have h := unit_route_eq cat table vs 0 frm toU sf st hcat (hpv vs hvs) hf ht
    rw [h]
    have hz : (0:ℚ) * sf / st = 0 := by simp
    rw [hz]
    norm_num [round6]
  · intro vs key label density vu mu sv sm hvs hm hvu hmu
    have h := material_route_eq none vs 0 key label density vu mu sv sm rfl
      (hpv vs hvs) hm hvu hmu
    rw [h]
    have hz : (0:ℚ) * sv * density / sm = 0 := by simp
    rw [hz]
    norm_num [round6]

/-- Witness for C10: a missing value in unit mode, an empty value in material
mode. -/
theorem C10_missing_value_zero_witness :
    parse_value none = some 0
    ∧ unit_converter_page ⟨some "unit", some "length", none, some "cm",
          some "m", none, none, none, none⟩
        = some (.unitResult 0 "cm" "m" 0)
    ∧ unit_converter_page ⟨some "material", none, some "", none, none, none,
          some "m3", some "kg", some "steel"⟩
        = some (.materialResult "vol_to_mass" "鋼材" 0 "m3" "kg" 0 7850) :=
  ⟨C10_missing_value_zero.1 none (Or.inl rfl),
   C10_missing_value_zero.2.1 none "length" length_table "cm" "m" (1/100) 1
     (Or.inl rfl) rfl rfl rfl,
   C10_missing_value_zero.2.2 (some "") "steel" "鋼材" 7850 "m3" "kg" 1 1
     (Or.inr rfl) rfl rfl rfl⟩

end Dokenapp
